import Mathlib

/-!
Verification development for the `ims_common` JWT authentication middleware
(`src/ims_common/jwt_middleware.py` and `src/ims_common/config.py`).

The embedding is shallow: Python functions become Lean functions; exceptions
become `Except`/`Option`; the external PyJWT `jwt.decode` call is an oracle
parameter (any function from token, key, algorithm to an optional decoded
payload, with every exception mapped to `none`); the external FastAPI
`HTTPBearer` credential extractor is modelled from the spec, as its code is
not part of this repository.
-/

namespace IMSCommon

/-- JSON values that can appear in a decoded JWT payload. -/
inductive JValue where
  | null
  | bool (b : Bool)
  | num (n : Int)
  | str (s : String)
  deriving DecidableEq, Repr

/-- A decoded JWT payload: a Python dict from claim name to value,
represented as an association list. -/
abbrev Payload := List (String × JValue)

/-- Python `key in payload` on a dict: key membership. -/
def Payload.containsKey (p : Payload) (k : String) : Bool :=
  (p.lookup k).isSome

/-- The wording of the spec (NOT the code): the decoded payload contains a
non-null identity claim `username`. Used only to state spec-side claims. -/
def specHasNonNullUsername (p : Payload) : Bool :=
  match p.lookup "username" with
  | some v => v != JValue.null
  | none => false

/-- Type of oracles modelling `jwt.decode(access_token, key, algorithms=[alg])`:
given the token string, the key string and the (optional, as in the config
model) algorithm, return the decoded payload, or `none` when PyJWT would
raise any exception (malformed token, bad signature, expired, wrong
algorithm, ...). -/
abbrev JwtDecode := String → String → Option String → Option Payload

/-- Source `config.py`: the `AuthenticationConfig` pydantic model fields. -/
structure AuthenticationConfig where
  enabled : Bool
  public_key_path : Option String := none
  jwt_algorithm : Option String := none
  deriving DecidableEq, Repr

/-- Source `config.py`, `validate_optional_fields`: pydantic validator for
`public_key_path` and `jwt_algorithm`; raises `ValueError("Field required")`
when `enabled` is `True` and the field value is `None`, otherwise returns
the field value unchanged. -/
def validate_optional_fields (enabled : Bool) (field_value : Option String) :
    Except String (Option String) :=
  if enabled = true ∧ field_value = none then
    Except.error "Field required"
  else
    Except.ok field_value

/-- Pydantic construction of `AuthenticationConfig`: run the validator on
both optional fields (with `enabled` already validated and available in
`info.data`); any `ValueError` makes construction fail. -/
def AuthenticationConfig.construct (enabled : Bool)
    (public_key_path jwt_algorithm : Option String) :
    Except String AuthenticationConfig := do
  let pkp ← validate_optional_fields enabled public_key_path
  let alg ← validate_optional_fields enabled jwt_algorithm
  return { enabled := enabled, public_key_path := pkp, jwt_algorithm := alg }

/-- The state captured by the `JWTMiddleware` class created by
`create_jwt_middleware`: the public key file contents (read at construction)
and the configured algorithm. -/
structure JWTMiddleware where
  publicKey : String
  jwt_algorithm : Option String
  deriving DecidableEq, Repr

/-- Source `jwt_middleware.py`, `create_jwt_middleware`: read the public key file;
`FileNotFoundError` causes `sys.exit` (and `open(None)` raises `TypeError`,
uncaught), both fatal at startup. On success the file contents are bound to
the constant `PUBLIC_KEY` captured by the returned middleware class.
The file system is `fs : path → Option contents`, `none` meaning unreadable. -/
def create_jwt_middleware (auth_config : AuthenticationConfig)
    (fs : String → Option String) : Except String JWTMiddleware :=
  match auth_config.public_key_path with
  | none => Except.error "TypeError: expected str, bytes or os.PathLike object, not NoneType"
  | some path =>
    match fs path with
    | none => Except.error ("Cannot find public key: " ++ path)
    | some PUBLIC_KEY =>
      Except.ok { publicKey := PUBLIC_KEY, jwt_algorithm := auth_config.jwt_algorithm }

/-- Source `jwt_middleware.py`, `JWTMiddleware._is_jwt_access_token_valid`:
try `jwt.decode(access_token, PUBLIC_KEY, algorithms=[auth_config.jwt_algorithm])`;
on any exception set `payload = None`; return
`payload is not None and "username" in payload`. -/
def JWTMiddleware.is_jwt_access_token_valid (self : JWTMiddleware)
    (jwt_decode : JwtDecode) (access_token : String) : Bool :=
  match jwt_decode access_token self.publicKey self.jwt_algorithm with
  | none => false
  | some payload => payload.containsKey "username"

/-- A Starlette request, restricted to what `dispatch` consumes:
the URL path and the `Authorization` header (optional). -/
structure Request where
  path : String
  authorization : Option String
  deriving DecidableEq, Repr

/-- The `HTTPException` raised by the credential extractor on failure:
a status code and a detail message. -/
structure ExtractionError where
  status_code : Nat
  detail : String
  deriving DecidableEq, Repr

/-- Python `str.partition(" ")` on a character list, keeping (before, after):
the characters before the first space, and those after it
(everything empty when there is no space). -/
def partitionSpaceAux : List Char → List Char × List Char
  | [] => ([], [])
  | c :: cs =>
    if c = ' ' then ([], cs)
    else
      let r := partitionSpaceAux cs
      (c :: r.1, r.2)

/-- Python `str.partition(" ")` restricted to (before, after). -/
def partitionSpace (s : String) : String × String :=
  ((partitionSpaceAux s.toList).1.asString, (partitionSpaceAux s.toList).2.asString)

/-- Python `str.lower()` on ASCII scheme names. -/
def asciiLower (s : String) : String :=
  (s.toList.map Char.toLower).asString

/-- Modelled from the spec: the credential extractor
`security = HTTPBearer(auto_error=True)` is FastAPI library code, not part of
this repository. Per the spec, it attempts to extract a bearer credential
from the `Authorization` header, and on failure (header missing, malformed,
wrong scheme) raises an `HTTPException` carrying the unauthorized status
(401) and a message. -/
def security (request : Request) : Except ExtractionError String :=
  match request.authorization with
  | none => Except.error { status_code := 401, detail := "Not authenticated" }
  | some header =>
    let scheme := (partitionSpace header).1
    let param := (partitionSpace header).2
    if scheme = "" ∨ param = "" then
      Except.error { status_code := 401, detail := "Not authenticated" }
    else if asciiLower scheme ≠ "bearer" then
      Except.error { status_code := 401, detail := "Invalid authentication credentials" }
    else
      Except.ok param

/-- What `dispatch` returns: either a `JSONResponse(status_code, content)`
built by the middleware itself, or the response of the downstream handler,
unchanged. `ρ` is the (abstract) type of downstream responses. -/
inductive GateResponse (ρ : Type) where
  | rejected (status_code : Nat) (content : List (String × String))
  | forwarded (r : ρ)
  deriving DecidableEq, Repr

/-- Instrumentation of one `dispatch` run: how many times the credential
extractor, the token verifier, and the downstream handler were invoked. -/
structure Trace where
  extractCalls : Nat
  verifyCalls : Nat
  nextCalls : Nat
  deriving DecidableEq, Repr

/-- Source `jwt_middleware.py`, `JWTMiddleware.dispatch`: if the request path is not
in `["/docs", "/openapi.json"]`, extract the credential via `security`
(extraction failure returns `JSONResponse(exc.status_code, {"detail": exc.detail})`),
then check `_is_jwt_access_token_valid` (failure returns
`JSONResponse(403, {"detail": "Invalid token or expired token"})`);
otherwise, or on success, return `await call_next(request)`.
The extractor is a parameter (`extract`), instantiated with `security`;
the result is paired with the call-count trace. -/
def JWTMiddleware.dispatch {ρ : Type} (self : JWTMiddleware)
    (jwt_decode : JwtDecode)
    (extract : Request → Except ExtractionError String)
    (call_next : Request → ρ) (request : Request) : GateResponse ρ × Trace :=
  if request.path ∉ ["/docs", "/openapi.json"] then
    match extract request with
    | Except.error exc =>
      (GateResponse.rejected exc.status_code [("detail", exc.detail)],
       { extractCalls := 1, verifyCalls := 0, nextCalls := 0 })
    | Except.ok credentials =>
      if ¬ (self.is_jwt_access_token_valid jwt_decode credentials) then
        (GateResponse.rejected 403 [("detail", "Invalid token or expired token")],
         { extractCalls := 1, verifyCalls := 1, nextCalls := 0 })
      else
        (GateResponse.forwarded (call_next request),
         { extractCalls := 1, verifyCalls := 1, nextCalls := 1 })
  else
    (GateResponse.forwarded (call_next request),
     { extractCalls := 0, verifyCalls := 0, nextCalls := 1 })

/-- Modelled from the spec: abstract semantics of a well-formed JWT, for
instantiating the `jwt.decode` oracle (PyJWT is external to this
repository). A token string either fails to parse (`none`) or carries the
key its signature verifies against, its signing algorithm, whether it is
expired, and its payload. -/
structure TokenMeta where
  sigKey : String
  alg : String
  expired : Bool
  payload : Payload
  deriving DecidableEq, Repr

/-- Modelled from the spec: PyJWT `jwt.decode(token, key, algorithms=[alg])`
succeeds — returning the payload — exactly when the token parses, its
signature verifies against `key`, its algorithm is the (non-None) configured
one, and it is not expired; every failure raises, i.e. yields `none`. -/
def pyjwtDecode (meta : String → Option TokenMeta) : JwtDecode :=
  fun token key alg =>
    match meta token with
    | none => none
    | some m =>
      if m.sigKey = key ∧ some m.alg = alg ∧ m.expired = false then
        some m.payload
      else
        none

/-! ## Shared helper definitions and lemmas -/

/-- A decode oracle on which every decode attempt fails (every token is
malformed / unverifiable). -/
def noDecode : JwtDecode := fun _ _ _ => none

/-- The spec-modelled extractor only ever fails with the unauthorized
status 401. -/
theorem security_error_status (req : Request) (exc : ExtractionError)
    (h : security req = Except.error exc) : exc.status_code = 401 := by
  unfold security at h
  cases hauth : req.authorization with
  | none => rw [hauth] at h; cases h; rfl
  | some header =>
    rw [hauth] at h
    simp only at h
    split at h
    · cases h; rfl
    · split at h
      · cases h; rfl
      · cases h

/-! ## Claims -/

/-- C1 amended: the Verifier returns true exactly when the token decodes
(signature verifies against the configured key, algorithm matches the
configured one, token unexpired) and the decoded payload contains the
`username` key — regardless of the claim value, null included. -/
theorem C1_valid_iff (meta : String → Option TokenMeta) (mw : JWTMiddleware)
    (tok : String) :
    mw.is_jwt_access_token_valid (pyjwtDecode meta) tok = true ↔
      ∃ m, meta tok = some m ∧ m.sigKey = mw.publicKey ∧
        some m.alg = mw.jwt_algorithm ∧ m.expired = false ∧
        m.payload.containsKey "username" = true := by
  unfold JWTMiddleware.is_jwt_access_token_valid pyjwtDecode
  cases h : meta tok with
  | none => simp [h]
  | some m =>
    by_cases hc : m.sigKey = mw.publicKey ∧ some m.alg = mw.jwt_algorithm ∧
        m.expired = false
    · simp only [h, hc, if_pos]
      constructor
      · intro hv
        exact ⟨m, rfl, hc.1, hc.2.1, hc.2.2, hv⟩
      · rintro ⟨m2, hm2, _, _, _, hv⟩
        cases Option.some.inj hm2
        exact hv
    · simp only [h, hc, if_neg, not_false_eq_true]
      constructor
      · intro hv; cases hv
      · rintro ⟨m2, hm2, h1, h2, h3⟩
        cases Option.some.inj hm2
        exact absurd ⟨h1, h2, h3.1⟩ hc

/-- Token environment for the C1 counterexample: one well-formed token,
correctly signed for key `PUBKEY` with algorithm `RS256`, unexpired, whose
payload maps `username` to JSON null. -/
def metaC1 : String → Option TokenMeta := fun token =>
  if token = "alice.token" then
    some { sigKey := "PUBKEY", alg := "RS256", expired := false,
           payload := [("username", JValue.null)] }
  else none

/-- C1 counterexample: for a correctly signed, unexpired,
algorithm-matching token whose payload maps `username` to null, the code
returns true even though the payload does NOT contain a non-null identity
claim — so "returns false in every other case" fails as stated. -/
theorem C1_counterexample :
    (JWTMiddleware.mk "PUBKEY" (some "RS256")).is_jwt_access_token_valid
        (pyjwtDecode metaC1) "alice.token" = true ∧
      specHasNonNullUsername [("username", JValue.null)] = false := by
  constructor <;> rfl

/-- C4: on any decode failure (the oracle yields `none`: malformed, empty or
truncated token, bad signature, expired, wrong algorithm, any other decode
exception) the Verifier returns false; being a total Lean function into
`Bool`, it always returns a boolean and no exception propagates. -/
theorem C4_decode_failure_false (mw : JWTMiddleware) (d : JwtDecode)
    (tok : String) (hfail : d tok mw.publicKey mw.jwt_algorithm = none) :
    mw.is_jwt_access_token_valid d tok = false := by
  unfold JWTMiddleware.is_jwt_access_token_valid
  rw [hfail]

/-- C4 witness: the empty string under an all-failing oracle. -/
theorem C4_witness :
    (JWTMiddleware.mk "PUBKEY" (some "RS256")).is_jwt_access_token_valid
        noDecode "" = false :=
  C4_decode_failure_false (JWTMiddleware.mk "PUBKEY" (some "RS256"))
    noDecode "" rfl

/-- C7 counterexample: with `enabled = true` and both optional fields set to
the empty string — not a non-empty value — construction nevertheless
succeeds, so "construction fails whenever `enabled` is true and
`public_key_path` or `jwt_algorithm` is not a non-empty value" is false, and
the constructed config has empty (not non-empty) fields. -/
theorem C7_counterexample :
    AuthenticationConfig.construct true (some "") (some "") =
      Except.ok { enabled := true, public_key_path := some "",
                  jwt_algorithm := some "" } ∧
      ("" : String).isEmpty = true := by
  constructor <;> rfl

/-- C7 amended: with `enabled = true`, construction fails exactly when
`public_key_path` or `jwt_algorithm` is absent (`None`); every successfully
constructed config with `enabled = true` has both fields present (`Some`),
though possibly empty strings. -/
theorem C7_required_iff_none (e : Bool) (p a : Option String)
    (he : e = true) :
    ((AuthenticationConfig.construct e p a).isOk = false ↔
      (p = none ∨ a = none)) ∧
    (∀ c, AuthenticationConfig.construct e p a = Except.ok c →
      c.public_key_path.isSome = true ∧ c.jwt_algorithm.isSome = true) := by
  subst he
  unfold AuthenticationConfig.construct validate_optional_fields
  cases p with
  | none =>
    refine ⟨by simp [Except.isOk, Except.toBool, Bind.bind, Except.bind], ?_⟩
    intro c hc
    simp [Bind.bind, Except.bind] at hc
  | some ps =>
    cases a with
    | none =>
      refine ⟨by simp [Except.isOk, Except.toBool, Bind.bind, Except.bind], ?_⟩
      intro c hc
      simp [Bind.bind, Except.bind] at hc
    | some as =>
      refine ⟨by simp [Except.isOk, Except.toBool, Bind.bind, Except.bind,
        Pure.pure, Except.pure], ?_⟩
      intro c hc
      simp [Bind.bind, Except.bind, Pure.pure, Except.pure] at hc
      subst hc
      exact ⟨rfl, rfl⟩

/-- C7 witness: `enabled = true` with a missing `public_key_path` fails,
and the presence property holds at that input. -/
theorem C7_witness :
    ((AuthenticationConfig.construct true none (some "RS256")).isOk = false ↔
      ((none : Option String) = none ∨ (some "RS256" : Option String) = none)) ∧
    (∀ c, AuthenticationConfig.construct true none (some "RS256") =
        Except.ok c →
      c.public_key_path.isSome = true ∧ c.jwt_algorithm.isSome = true) :=
  C7_required_iff_none true none (some "RS256") rfl

/-- C2: on a non-exempt path, when credential extraction fails, dispatch
returns a rejection with the unauthorized status 401 and JSON body
keyed `detail` carrying the extraction-error message, and the next handler
is never invoked (`nextCalls = 0`). -/
theorem C2_extraction_failure_rejected {ρ : Type} (mw : JWTMiddleware)
    (d : JwtDecode) (call_next : Request → ρ) (req : Request)
    (exc : ExtractionError)
    (hpath : req.path ∉ ["/docs", "/openapi.json"])
    (hext : security req = Except.error exc) :
    mw.dispatch d security call_next req =
      (GateResponse.rejected 401 [("detail", exc.detail)],
       { extractCalls := 1, verifyCalls := 0, nextCalls := 0 }) := by
  have h401 := security_error_status req exc hext
  unfold JWTMiddleware.dispatch
  simp [hpath, hext, h401]

/-- C2 witness: a request to `/data` with no Authorization header. -/
theorem C2_witness :
    (JWTMiddleware.mk "PUBKEY" (some "RS256")).dispatch noDecode security
        (fun _ => (0 : Nat)) (Request.mk "/data" none) =
      (GateResponse.rejected 401 [("detail", "Not authenticated")],
       { extractCalls := 1, verifyCalls := 0, nextCalls := 0 }) :=
  C2_extraction_failure_rejected (JWTMiddleware.mk "PUBKEY" (some "RS256"))
    noDecode (fun _ => (0 : Nat)) (Request.mk "/data" none)
    (ExtractionError.mk 401 "Not authenticated") (by decide) rfl

/-- C3: on a non-exempt path with an extractable credential that the
Verifier rejects, dispatch returns status 403 with body exactly
`detail ↦ "Invalid token or expired token"`, and the next handler is not
invoked (`nextCalls = 0`). -/
theorem C3_invalid_token_403 {ρ : Type} (mw : JWTMiddleware) (d : JwtDecode)
    (extract : Request → Except ExtractionError String)
    (call_next : Request → ρ) (req : Request) (cred : String)
    (hpath : req.path ∉ ["/docs", "/openapi.json"])
    (hext : extract req = Except.ok cred)
    (hval : mw.is_jwt_access_token_valid d cred = false) :
    mw.dispatch d extract call_next req =
      (GateResponse.rejected 403 [("detail", "Invalid token or expired token")],
       { extractCalls := 1, verifyCalls := 1, nextCalls := 0 }) := by
  unfold JWTMiddleware.dispatch
  simp [hpath, hext, hval]

/-- C3 witness: `/data` with `Authorization: Bearer garbage` under an
all-failing decode oracle. -/
theorem C3_witness :
    (JWTMiddleware.mk "PUBKEY" (some "RS256")).dispatch noDecode security
        (fun _ => (0 : Nat)) (Request.mk "/data" (some "Bearer garbage")) =
      (GateResponse.rejected 403 [("detail", "Invalid token or expired token")],
       { extractCalls := 1, verifyCalls := 1, nextCalls := 0 }) :=
  C3_invalid_token_403 (JWTMiddleware.mk "PUBKEY" (some "RS256")) noDecode
    security (fun _ => (0 : Nat)) (Request.mk "/data" (some "Bearer garbage"))
    "garbage" (by decide) rfl rfl

/-- C5: on an exempt path (`/docs` or `/openapi.json`), dispatch skips all
authentication — the extractor and the Verifier are never called — and
forwards to the next handler, returning its result unchanged, regardless of
the Authorization header. -/
theorem C5_exempt_path_skips_auth {ρ : Type} (mw : JWTMiddleware)
    (d : JwtDecode) (extract : Request → Except ExtractionError String)
    (call_next : Request → ρ) (req : Request)
    (hpath : req.path ∈ ["/docs", "/openapi.json"]) :
    mw.dispatch d extract call_next req =
      (GateResponse.forwarded (call_next req),
       { extractCalls := 0, verifyCalls := 0, nextCalls := 1 }) := by
  unfold JWTMiddleware.dispatch
  simp [hpath]

/-- C5 witness: `/docs` with no Authorization header is forwarded. -/
theorem C5_witness :
    (JWTMiddleware.mk "PUBKEY" (some "RS256")).dispatch noDecode security
        (fun _ => (7 : Nat)) (Request.mk "/docs" none) =
      (GateResponse.forwarded 7,
       { extractCalls := 0, verifyCalls := 0, nextCalls := 1 }) :=
  C5_exempt_path_skips_auth (JWTMiddleware.mk "PUBKEY" (some "RS256"))
    noDecode security (fun _ => (7 : Nat)) (Request.mk "/docs" none)
    (by decide)

/-- C6: on a non-exempt path with an extractable credential that the
Verifier accepts, dispatch invokes the next handler exactly once
(`nextCalls = 1`) and returns its response unmodified. -/
theorem C6_valid_token_forwarded {ρ : Type} (mw : JWTMiddleware)
    (d : JwtDecode) (extract : Request → Except ExtractionError String)
    (call_next : Request → ρ) (req : Request) (cred : String)
    (hpath : req.path ∉ ["/docs", "/openapi.json"])
    (hext : extract req = Except.ok cred)
    (hval : mw.is_jwt_access_token_valid d cred = true) :
    mw.dispatch d extract call_next req =
      (GateResponse.forwarded (call_next req),
       { extractCalls := 1, verifyCalls := 1, nextCalls := 1 }) := by
  unfold JWTMiddleware.dispatch
  simp [hpath, hext, hval]

/-- Token environment with one correctly signed, unexpired token carrying a
string `username` claim. -/
def metaValid : String → Option TokenMeta := fun token =>
  if token = "alice.token" then
    some { sigKey := "PUBKEY", alg := "RS256", expired := false,
           payload := [("username", JValue.str "alice")] }
  else none

/-- C6 witness: `/data` with a well-formed, correctly signed, unexpired
bearer token carrying an identity claim. -/
theorem C6_witness :
    (JWTMiddleware.mk "PUBKEY" (some "RS256")).dispatch (pyjwtDecode metaValid)
        security (fun _ => (7 : Nat))
        (Request.mk "/data" (some "Bearer alice.token")) =
      (GateResponse.forwarded 7,
       { extractCalls := 1, verifyCalls := 1, nextCalls := 1 }) :=
  C6_valid_token_forwarded (JWTMiddleware.mk "PUBKEY" (some "RS256"))
    (pyjwtDecode metaValid) security (fun _ => (7 : Nat))
    (Request.mk "/data" (some "Bearer alice.token")) "alice.token"
    (by decide) rfl (by decide)

/-- C8: when the configured key path is set and its file is unreadable,
`create_jwt_middleware` never yields a middleware (startup is fatal); when
the file is readable, the middleware is created with `publicKey` bound to
the file contents read at construction — every subsequent verification is a
function of that captured key only. -/
theorem C8_key_load (cfg : AuthenticationConfig) (fs : String → Option String)
    (path : String) (hp : cfg.public_key_path = some path) :
    (fs path = none → ∀ mw, create_jwt_middleware cfg fs ≠ Except.ok mw) ∧
    (∀ key, fs path = some key →
      create_jwt_middleware cfg fs =
        Except.ok { publicKey := key, jwt_algorithm := cfg.jwt_algorithm }) := by
  unfold create_jwt_middleware
  rw [hp]
  constructor
  · intro hnone mw
    simp [hnone]
  · intro key hkey
    simp [hkey]

/-- C8 witness: a file system holding the key at the configured path. -/
theorem C8_witness :
    (((fun p => if p = "/etc/key.pem" then some "PUBKEY" else none) :
        String → Option String) "/etc/key.pem" = none →
      ∀ mw, create_jwt_middleware
          (AuthenticationConfig.mk true (some "/etc/key.pem") (some "RS256"))
          (fun p => if p = "/etc/key.pem" then some "PUBKEY" else none) ≠
        Except.ok mw) ∧
    (∀ key, ((fun p => if p = "/etc/key.pem" then some "PUBKEY" else none) :
        String → Option String) "/etc/key.pem" = some key →
      create_jwt_middleware
          (AuthenticationConfig.mk true (some "/etc/key.pem") (some "RS256"))
          (fun p => if p = "/etc/key.pem" then some "PUBKEY" else none) =
        Except.ok { publicKey := key, jwt_algorithm := some "RS256" }) :=
  C8_key_load
    (AuthenticationConfig.mk true (some "/etc/key.pem") (some "RS256"))
    (fun p => if p = "/etc/key.pem" then some "PUBKEY" else none)
    "/etc/key.pem" rfl

/-- C9: the middleware never consults the `enabled` flag — construction
yields the same middleware for configs differing only in `enabled`, and the
resulting verifiers and dispatchers behave identically on every input. -/
theorem C9_enabled_flag_ignored {ρ : Type} (enabled1 enabled2 : Bool)
    (pkp alg : Option String) (fs : String → Option String) :
    create_jwt_middleware (AuthenticationConfig.mk enabled1 pkp alg) fs =
      create_jwt_middleware (AuthenticationConfig.mk enabled2 pkp alg) fs ∧
    ∀ mw1 mw2,
      create_jwt_middleware (AuthenticationConfig.mk enabled1 pkp alg) fs =
        Except.ok mw1 →
      create_jwt_middleware (AuthenticationConfig.mk enabled2 pkp alg) fs =
        Except.ok mw2 →
      (∀ (d : JwtDecode) (tok : String),
        mw1.is_jwt_access_token_valid d tok =
          mw2.is_jwt_access_token_valid d tok) ∧
      ∀ (d : JwtDecode) (extract : Request → Except ExtractionError String)
        (call_next : Request → ρ) (req : Request),
        mw1.dispatch d extract call_next req =
          mw2.dispatch d extract call_next req := by
  refine ⟨rfl, ?_⟩
  intro mw1 mw2 h1 h2
  have hmw : mw1 = mw2 := Except.ok.inj (h1.symm.trans h2)
  subst hmw
  exact ⟨fun _ _ => rfl, fun _ _ _ _ => rfl⟩

/-- C10: exempt-path matching is exact string equality — every path other
than exactly `/docs` and `/openapi.json` goes through credential extraction,
and through verification whenever extraction succeeds. -/
theorem C10_exact_path_match {ρ : Type} (mw : JWTMiddleware) (d : JwtDecode)
    (extract : Request → Except ExtractionError String)
    (call_next : Request → ρ) (req : Request)
    (h1 : req.path ≠ "/docs") (h2 : req.path ≠ "/openapi.json") :
    (mw.dispatch d extract call_next req).2.extractCalls = 1 ∧
    ∀ cred, extract req = Except.ok cred →
      (mw.dispatch d extract call_next req).2.verifyCalls = 1 := by
  have hpath : req.path ∉ ["/docs", "/openapi.json"] := by
    simp [h1, h2]
  cases hext : extract req with
  | error exc =>
    constructor
    · simp [JWTMiddleware.dispatch, hpath, hext]
    · intro cred hok
      exact absurd hok (by simp)
  | ok cred =>
    cases hval : mw.is_jwt_access_token_valid d cred with
    | false =>
      constructor <;>
        simp [JWTMiddleware.dispatch, hpath, hext, hval]
    | true =>
      constructor <;>
        simp [JWTMiddleware.dispatch, hpath, hext, hval]

/-- C10 witness: `/docs/` (trailing slash) is not exempt — extraction and
verification both run. -/
theorem C10_witness :
    (((JWTMiddleware.mk "PUBKEY" (some "RS256")).dispatch noDecode security
        (fun _ => (0 : Nat))
        (Request.mk "/docs/" (some "Bearer x"))).2.extractCalls = 1) ∧
    ∀ cred, security (Request.mk "/docs/" (some "Bearer x")) =
        Except.ok cred →
      ((JWTMiddleware.mk "PUBKEY" (some "RS256")).dispatch noDecode security
        (fun _ => (0 : Nat))
        (Request.mk "/docs/" (some "Bearer x"))).2.verifyCalls = 1 :=
  C10_exact_path_match (JWTMiddleware.mk "PUBKEY" (some "RS256")) noDecode
    security (fun _ => (0 : Nat)) (Request.mk "/docs/" (some "Bearer x"))
    (by decide) (by decide)

end IMSCommon
